import Mathlib

/-
Verification of the natural-language specification of the
google_images_scraper repository (src/google_scraper.py) against a
shallow embedding of its code.

The embedding models:
- sha1 hexdigest (hashlib.sha1(url).hexdigest()) as a full SHA-1
  implementation over lists of byte values (Nat);
- parsed HTML documents (BeautifulSoup results) abstractly: a Document
  holds the list of result-container elements (each with the optional
  img src and anchor href attributes the code reads) and the optional
  href of the "next page" anchor;
- network effects through an Env oracle: the outcome of each page-fetch
  attempt (indexed by attempt number, to model the retry loop) and of
  each image fetch (none models a raised requests exception);
- the run state of scrape_stock: current url, num_images, cur_page, the
  soup variable (none while still unassigned, modelling the Python
  NameError on first-page fetch failure), the CSV rows written so far,
  the set of files existing on disk, and a chronological event trace
  (page requests, sleeps, CSV row writes, image requests, file writes).
-/

namespace Scraper

/-! ### SHA-1 over byte lists (hashlib.sha1(...).hexdigest()) -/

/-- Truncate to a 32-bit word. -/
def w32 (x : Nat) : Nat := x % 4294967296

/-- Rotate a 32-bit word left by n bits. -/
def rotl32 (x n : Nat) : Nat := ((x <<< n) ||| (x >>> (32 - n))) % 4294967296

/-- UTF-8 bytes of a string, as Nat values (Python str.encode of utf-8). -/
def utf8Bytes (s : String) : List Nat := s.toUTF8.data.toList.map (fun b => b.toNat)

/-- Big-endian byte representation of x in n bytes. -/
def beBytes (n x : Nat) : List Nat := (List.range n).map (fun i => (x >>> (8 * (n - 1 - i))) % 256)

/-- SHA-1 message padding: 0x80, zero bytes to 56 mod 64, 8-byte bit length. -/
def sha1pad (msg : List Nat) : List Nat :=
  let z := (120 - (msg.length + 1) % 64) % 64
  msg ++ [128] ++ List.replicate z 0 ++ beBytes 8 (msg.length * 8)

/-- Group bytes into big-endian 32-bit words. -/
def toWords : List Nat → List Nat
  | a :: b :: c :: d :: rest => (((a * 256 + b) * 256 + c) * 256 + d) :: toWords rest
  | _ => []

/-- One step of the SHA-1 message-schedule extension. -/
def sha1ExtendStep (a : Array Nat) (_ : Nat) : Array Nat :=
  a.push (rotl32 ((a.getD (a.size - 3) 0) ^^^ (a.getD (a.size - 8) 0) ^^^
    (a.getD (a.size - 14) 0) ^^^ (a.getD (a.size - 16) 0)) 1)

/-- Extend 16 schedule words to 80. -/
def sha1Extend (w : List Nat) : Array Nat := (List.range 64).foldl sha1ExtendStep w.toArray

/-- The SHA-1 round function. -/
def sha1f (i b c d : Nat) : Nat :=
  if i < 20 then (b &&& c) ||| ((b ^^^ 4294967295) &&& d)
  else if i < 40 then b ^^^ c ^^^ d
  else if i < 60 then (b &&& c) ||| (b &&& d) ||| (c &&& d)
  else b ^^^ c ^^^ d

/-- The SHA-1 round constants. -/
def sha1k (i : Nat) : Nat :=
  if i < 20 then 1518500249
  else if i < 40 then 1859775393
  else if i < 60 then 2400959708
  else 3395469782

/-- One SHA-1 round on the five-word state. -/
def sha1round (w : Array Nat) (st : Nat × Nat × Nat × Nat × Nat) (i : Nat) :
    Nat × Nat × Nat × Nat × Nat :=
  let (a, b, c, d, e) := st
  (w32 (rotl32 a 5 + sha1f i b c d + e + sha1k i + w.getD i 0), a, rotl32 b 30, c, d)

/-- Process one 64-byte chunk. -/
def sha1chunk (h : Nat × Nat × Nat × Nat × Nat) (chunk : List Nat) :
    Nat × Nat × Nat × Nat × Nat :=
  let w := sha1Extend (toWords chunk)
  let (a, b, c, d, e) := (List.range 80).foldl (sha1round w) h
  let (h0, h1, h2, h3, h4) := h
  (w32 (h0 + a), w32 (h1 + b), w32 (h2 + c), w32 (h3 + d), w32 (h4 + e))

/-- Split a padded message into 64-byte chunks. -/
def sha1chunks (l : List Nat) : List (List Nat) :=
  (List.range (l.length / 64)).map (fun i => (l.drop (64 * i)).take 64)

/-- Lower-case hex digit for a value below 16. -/
def hexDigit (n : Nat) : Char := if n < 10 then Char.ofNat (48 + n) else Char.ofNat (87 + n)

/-- Eight-digit lower-case hex rendering of a 32-bit word. -/
def hexWord (x : Nat) : String :=
  String.mk ((List.range 8).map (fun i => hexDigit ((x >>> (4 * (7 - i))) % 16)))

/-- SHA-1 hex digest of a byte list. -/
def sha1Hex (msg : List Nat) : String :=
  let r := (sha1chunks (sha1pad msg)).foldl sha1chunk
    (1732584193, 4023233417, 2562383102, 271733878, 3285377520)
  hexWord r.1 ++ hexWord r.2.1 ++ hexWord r.2.2.1 ++ hexWord r.2.2.2.1 ++ hexWord r.2.2.2.2

/-- hashlib.sha1(s.encode(utf-8)).hexdigest() -/
def sha1HexString (s : String) : String := sha1Hex (utf8Bytes s)

/-! ### Data model -/

/-- One extracted image record (the dict built in scrape_images). -/
structure Image where
  image_url : String
  image_info_url : String
deriving DecidableEq, Repr

/-- One result-container element (a div of class lIMUZd), holding the two
attributes the code reads: element.img with its src attribute, and
element.a with its href attribute. A none field models the sub-element or
attribute being absent, which in Python raises when subscripted. -/
structure Element where
  img_src : Option String
  a_href : Option String
deriving DecidableEq, Repr

/-- A parsed results page (the BeautifulSoup document), abstracted to what
the code reads from it: the result-container elements in document order,
and the href attribute of the anchor of class frGj1b if that anchor
exists (none models page.find returning None). -/
structure Document where
  resultElements : List Element
  nextHref : Option String
deriving DecidableEq, Repr

/-- One CSV row written by output_csv.writerow. -/
structure Row where
  rank_pos : Nat
  image_url : String
  image_info_url : String
  download_file : String
deriving DecidableEq, Repr

/-- Observable events, in chronological order: the CSV header write, a page
GET request (with its attempt number within the retry loop), a time.sleep,
a CSV row write, an image GET request, and an image file write. -/
inductive Ev where
  | header
  | pageReq (url : String) (attempt : Nat)
  | sleep (seconds : Nat)
  | row (r : Row)
  | imageReq (url : String)
  | fileWrite (path : String)
deriving DecidableEq, Repr

/-- The network environment: pageFetch url k is the outcome of attempt k of
a GET on a results-page url (none models requests.get raising), and
imageFetch url is the outcome of the single GET on an image url (none
models requests.get raising, some bytes a response with r.content). -/
structure Env where
  pageFetch : String → Nat → Option Document
  imageFetch : String → Option (List Nat)

/-- The configuration: the query term and the max_images constant. -/
structure Cfg where
  query : String
  max_images : Nat
deriving DecidableEq, Repr

/-- The mutable state of scrape_stock: url, num_images, cur_page, the soup
variable (none while not yet assigned), the CSV rows written so far, the
paths of files existing on disk, and the event trace so far. -/
structure St where
  url : String
  numImages : Nat
  curPage : Nat
  soup : Option Document
  rows : List Row
  files : List String
  events : List Ev
deriving DecidableEq, Repr

/-- Result of one iteration of the while loop: either control reaches the
bottom of the loop body (back to the while test), or an uncaught exception
propagates and the run aborts. -/
inductive StepRes where
  | next (st : St)
  | aborted (st : St)
deriving DecidableEq, Repr

/-- Result of the whole loop: the while condition became false (finished),
an uncaught exception propagated (aborted), or the fuel ran out (model
artifact for a loop that has not yet terminated). -/
inductive RunResult where
  | finished (st : St)
  | aborted (st : St)
  | outOfFuel (st : St)
deriving DecidableEq, Repr

/-! ### The program (shallow embedding of src/google_scraper.py) -/

/-- The default query constant (line 25). -/
def default_query : String := "puppy"

/-- The max_images constant (line 28). -/
def default_max_images : Nat := 50

/-- os.path.join for the cases arising here (no absolute second path): a
separator is inserted unless the first part is empty or already ends with
the separator. -/
def joinPath (a b : String) : String :=
  if a = "" then b
  else if a.data.getLast? = some (Char.ofNat 47) then a ++ b
  else a ++ "/" ++ b

/-- query_url (lines 221-228): string composition of the search url. -/
def query_url (term : String) : String :=
  "https://www.google.com/search?q=" ++ term ++
    "&source=lnms&tbm=isch&sa=X&ved=2ahUKEwie6f-DgLPsAhX0KLkGHd8HAvgQ_AUoA3oECBQQBQ&biw=1280&bih=726"

/-- scrape_next_link (lines 230-235): reads the href of the anchor of class
frGj1b and prefixes the host. Returns none when the anchor is absent,
modelling the TypeError raised by subscripting the None that page.find
returns; url and pagination_index are parameters the body never uses. -/
def scrape_next_link (page : Document) (url : String) (pagination_index : Nat) :
    Option String :=
  page.nextHref.map (fun href => "https://www.google.com" ++ href)

/-- The characters of a string before the first occurrence of a separator,
or the whole string when the separator never occurs: the first component
of the Python split(sep, 1). -/
def stripAtSep (sep : List Char) : List Char → List Char
  | [] => []
  | c :: rest => if sep.isPrefixOf (c :: rest) then [] else c :: stripAtSep sep rest

/-- Body of the scrape_images loop (lines 197-216) on one element: read
element.img src and element.a href, drop the first 7 characters of the
href, and truncate at the tracking-parameter separator. none models the
exception raised when the img or a sub-element is missing. -/
def extract_image (element : Element) : Option Image :=
  match element.img_src, element.a_href with
  | some src, some href =>
    let image_info_url := String.mk (href.data.drop 7)
    let sep := "&sa=U&ved=2"
    let stripped := String.mk (stripAtSep sep.data image_info_url.data)
    some { image_url := src, image_info_url := stripped }
  | _, _ => none

/-- scrape_images (lines 182-218): extract one Image per result element, in
document order; none models the uncaught exception when an element is
malformed (which aborts the whole extraction). -/
def scrape_images (page : Document) : Option (List Image) :=
  page.resultElements.mapM extract_image

/-- folderp (line 98): os.path.join(output_folder) where main set
output_folder to the query. -/
def folderp (cfg : Cfg) : String := cfg.query

/-- The local image path computed at lines 151-153: the sha1 hex digest of
the image url, a fixed .jpg extension, joined to the output folder. -/
def imagePath (cfg : Cfg) (image_url : String) : String :=
  joinPath (folderp cfg) (sha1HexString image_url ++ ".jpg")

/-- The CSV row built at lines 156-159 for a record processed when
num_images was st.numImages before the increment. -/
def mkRow (cfg : Cfg) (st : St) (img : Image) : Row :=
  { rank_pos := st.numImages + 1,
    image_url := img.image_url,
    image_info_url := img.image_info_url,
    download_file := imagePath cfg img.image_url }

/-- Body of the for loop over image_list (lines 141-170): increment
num_images, compute the hash path, write the CSV row, and if no file
exists at the path, GET the image (a raised exception, modelled by none,
propagates: .error) and write non-empty content to the file. -/
def processImage (cfg : Cfg) (env : Env) (st : St) (img : Image) : Except St St :=
  let num_images := st.numImages + 1
  let image_url := img.image_url
  let image_info_url := img.image_info_url
  let hash_url := sha1HexString image_url
  let image_fn := hash_url ++ ".jpg"
  let image_fp := joinPath (folderp cfg) image_fn
  let row : Row := { rank_pos := num_images, image_url := image_url,
                     image_info_url := image_info_url, download_file := image_fp }
  let st1 : St := { st with
    numImages := num_images,
    rows := st.rows ++ [row],
    events := st.events ++ [Ev.row row] }
  if image_fp ∈ st1.files then .ok st1
  else
    let st2 : St := { st1 with events := st1.events ++ [Ev.imageReq image_url] }
    match env.imageFetch image_url with
    | none => .error st2
    | some content =>
      if 0 < content.length then
        .ok { st2 with
          files := image_fp :: st2.files,
          events := st2.events ++ [Ev.fileWrite image_fp] }
      else .ok st2

/-- The for loop over image_list (lines 141-170): process records in order;
an uncaught exception (.error) stops the loop and propagates. -/
def processImages (cfg : Cfg) (env : Env) : St → List Image → Except St St
  | st, [] => .ok st
  | st, img :: rest =>
    match processImage cfg env st img with
    | .ok st' => processImages cfg env st' rest
    | .error st' => .error st'

/-- The retry loop at lines 114-124: up to n more attempts starting at
attempt number k, each preceded by a 5-second sleep; stops at the first
success. Returns the outcome and the events of these attempts. -/
def pageRetries (env : Env) (url : String) : Nat → Nat → Option Document × List Ev
  | _, 0 => (none, [])
  | k, n + 1 =>
    match env.pageFetch url k with
    | some d => (some d, [Ev.sleep 5, Ev.pageReq url k])
    | none =>
      let r := pageRetries env url (k + 1) n
      (r.1, Ev.sleep 5 :: Ev.pageReq url k :: r.2)

/-- The page download at lines 110-124: one initial attempt, then on
exception the retry loop of 5 further attempts. -/
def fetchPage (env : Env) (url : String) : Option Document × List Ev :=
  match env.pageFetch url 0 with
  | some d => (some d, [Ev.pageReq url 0])
  | none =>
    let r := pageRetries env url 1 5
    (r.1, Ev.pageReq url 0 :: r.2)

/-- One iteration of the while loop of scrape_stock (lines 107-178).
On exhausted page-fetch retries (lines 125-131): scrape_next_link is
called on the soup variable, which still holds the previous page (or is
unassigned on the first iteration, a NameError: aborted); on success the
url is replaced, cur_page incremented, and the loop continues without
touching any rows. On fetch success: parse, scrape_images (an exception
aborts), process every record, then scrape_next_link on the current soup
(lines 172-178; an exception aborts) and continue with the new url. -/
def loopStep (cfg : Cfg) (env : Env) (st : St) : StepRes :=
  match fetchPage env st.url with
  | (none, evs) =>
    let stf : St := { st with events := st.events ++ evs }
    match stf.soup with
    | none => .aborted stf
    | some soup =>
      match scrape_next_link soup stf.url stf.curPage with
      | none => .aborted stf
      | some nurl => .next { stf with url := nurl, curPage := stf.curPage + 1 }
  | (some doc, evs) =>
    let stp : St := { st with events := st.events ++ evs, soup := some doc }
    match scrape_images doc with
    | none => .aborted stp
    | some image_list =>
      match processImages cfg env stp image_list with
      | .error st' => .aborted st'
      | .ok st' =>
        match scrape_next_link doc st'.url st'.curPage with
        | none => .aborted st'
        | some nurl => .next { st' with url := nurl, curPage := st'.curPage + 1 }

/-- The while loop (line 107): test num_images < max_images, run the body,
repeat. Fuel bounds the number of iterations in the model. -/
def run (cfg : Cfg) (env : Env) : Nat → St → RunResult
  | 0, st => .outOfFuel st
  | fuel + 1, st =>
    if st.numImages < cfg.max_images then
      match loopStep cfg env st with
      | .next st' => run cfg env fuel st'
      | .aborted st' => .aborted st'
    else .finished st

/-- The state of scrape_stock at entry (lines 95-104): url from query_url,
counters reset, soup unassigned, no rows yet; files0 is whatever image
files already exist on disk. -/
def initState (cfg : Cfg) (files0 : List String) : St :=
  { url := query_url cfg.query, numImages := 0, curPage := 1, soup := none,
    rows := [], files := files0, events := [] }

/-- Outcome of main (lines 41-79): if the metadata CSV file already exists
(line 64), print a message and sys.exit() with no further work; otherwise
write the header and run scrape_stock. -/
inductive MainOutcome where
  | earlyExit
  | ran (r : RunResult)
deriving DecidableEq, Repr

/-- main, modelled on the csvExists flag (os.path.isfile at line 64). -/
def mainModel (cfg : Cfg) (env : Env) (fuel : Nat) (files0 : List String)
    (csvExists : Bool) : MainOutcome :=
  if csvExists then .earlyExit
  else .ran (run cfg env fuel (initState cfg files0))

/-- The events main produces: nothing on the early exit; otherwise the
header write followed by the run's events. -/
def mainEvents (cfg : Cfg) (env : Env) (fuel : Nat) (files0 : List String)
    (csvExists : Bool) : List Ev :=
  if csvExists then []
  else Ev.header :: (match run cfg env fuel (initState cfg files0) with
    | .finished st => st.events
    | .aborted st => st.events
    | .outOfFuel st => st.events)

/-- Process exit status: sys.exit() with no argument exits with status 0;
an uncaught exception exits non-zero; a finished run falls off main and
exits 0. outOfFuel is a model artifact of a still-running loop, mapped
to 0. -/
def mainExitCode : MainOutcome → Nat
  | .earlyExit => 0
  | .ran (.finished _) => 0
  | .ran (.aborted _) => 1
  | .ran (.outOfFuel _) => 0

/-- The state carried by either constructor of an Except St St. -/
def exceptState : Except St St → St
  | .ok st => st
  | .error st => st

/-- The state carried by a StepRes. -/
def stepState : StepRes → St
  | .next st => st
  | .aborted st => st

/-- The state carried by a RunResult. -/
def resultState : RunResult → St
  | .finished st => st
  | .aborted st => st
  | .outOfFuel st => st

/-- True exactly on an aborted run. -/
def isAborted : RunResult → Bool
  | .aborted _ => true
  | _ => false

/-- Number of image GET requests in a trace. -/
def countImageReqs (evs : List Ev) : Nat :=
  (evs.filter (fun e => match e with | .imageReq _ => true | _ => false)).length

/-- The run invariant: the rank_pos column of the rows written so far is
exactly 1, 2, ..., num_images, and every row's download_file is the
content-addressed path of its image_url. -/
def Inv (cfg : Cfg) (st : St) : Prop :=
  st.rows.map Row.rank_pos = List.range' 1 st.numImages ∧
  ∀ r ∈ st.rows, r.download_file = imagePath cfg r.image_url

/-! ### Concrete inputs for witnesses and counterexamples -/

/-- Configuration for the claim C1 witness. -/
def cfgC1 : Cfg := { query := "q", max_images := 50 }

/-- A previously fetched page whose next-page anchor points at /p2. -/
def docC1 : Document := { resultElements := [], nextHref := some "/p2" }

/-- An environment in which every page-fetch attempt raises. -/
def envC1 : Env := { pageFetch := fun _ _ => none, imageFetch := fun _ => none }

/-- A mid-run state holding the previous page in the soup variable. -/
def stC1 : St := { url := "http://page1", numImages := 0, curPage := 3, soup := some docC1,
                   rows := [], files := [], events := [] }

/-- Configuration for the claim C2 counterexample. -/
def cfgC2 : Cfg := { query := "q", max_images := 50 }

/-- A results page with no result elements and no next-page anchor. -/
def docC2 : Document := { resultElements := [], nextHref := none }

/-- An environment in which every page fetch returns the page without a
next-page anchor. -/
def envC2 : Env := { pageFetch := fun _ _ => some docC2, imageFetch := fun _ => none }

/-- Configuration for the claim C5 witness: a target of one image. -/
def cfgC5 : Cfg := { query := "q", max_images := 1 }

/-- A results page with one well-formed result element. -/
def docC5 : Document :=
  { resultElements := [{ img_src := some "u", a_href := some "0123456X" }],
    nextHref := some "/n" }

/-- An environment in which the page fetch succeeds and the image fetch
returns one byte. -/
def envC5 : Env := { pageFetch := fun _ _ => some docC5, imageFetch := fun _ => some [1] }

/-- The row the claim C5 witness run writes. -/
def rowC5 : Row := { rank_pos := 1, image_url := "u", image_info_url := "X",
                     download_file := imagePath cfgC5 "u" }

/-- Configuration for the claim C7 witness. -/
def cfgC7 : Cfg := { query := "q", max_images := 50 }

/-- The record processed by the claim C7 witness. -/
def imgC7 : Image := { image_url := "u", image_info_url := "i" }

/-- An environment in which any network request would raise. -/
def envC7 : Env := { pageFetch := fun _ _ => none, imageFetch := fun _ => none }

/-- A state in which the computed image path already exists on disk. -/
def stC7 : St := { url := "x", numImages := 0, curPage := 1, soup := none, rows := [],
                   files := [imagePath cfgC7 "u"], events := [] }

/-- Configuration for the claim C8 counterexample run. -/
def cfgC8 : Cfg := { query := "q", max_images := 50 }

/-- A results page with two well-formed result elements and a next link. -/
def docC8 : Document :=
  { resultElements := [{ img_src := some "u1", a_href := some "0123456AAA" },
                       { img_src := some "u2", a_href := some "0123456BBB" }],
    nextHref := some "/next" }

/-- An environment in which page fetches succeed but every image fetch
raises a (transient) network exception. -/
def envC8 : Env := { pageFetch := fun _ _ => some docC8, imageFetch := fun _ => none }

/-- Configuration for the claim C8 amended-theorem witness. -/
def cfgC8w : Cfg := { query := "q", max_images := 50 }

/-- The record processed by the claim C8 amended-theorem witness. -/
def imgC8w : Image := { image_url := "u", image_info_url := "i" }

/-- An environment in which the image fetch raises. -/
def envC8w : Env := { pageFetch := fun _ _ => none, imageFetch := fun _ => none }

/-- A state in which the computed image path does not exist on disk. -/
def stC8w : St := { url := "x", numImages := 0, curPage := 1, soup := none, rows := [],
                    files := [], events := [] }

/-- Configuration for the claim C9 witness. -/
def cfgC9 : Cfg := { query := "q", max_images := 50 }

/-- The record processed by the claim C9 witness. -/
def imgC9 : Image := { image_url := "u", image_info_url := "i" }

/-- An environment in which the image fetch succeeds with zero bytes. -/
def envC9 : Env := { pageFetch := fun _ _ => none, imageFetch := fun _ => some [] }

/-- A state in which the computed image path does not exist on disk. -/
def stC9 : St := { url := "x", numImages := 0, curPage := 1, soup := none, rows := [],
                   files := [], events := [] }

/-! ### Helper lemmas -/

lemma range1_concat (n : Nat) : List.range' 1 (n + 1) = List.range' 1 n ++ [n + 1] := by
  rw [List.range'_concat]
  simp [Nat.add_comm]

lemma processImage_shape (cfg : Cfg) (env : Env) (st : St) (img : Image) :
    ∃ rest : List Ev,
      (exceptState (processImage cfg env st img)).rows = st.rows ++ [mkRow cfg st img] ∧
      (exceptState (processImage cfg env st img)).numImages = st.numImages + 1 ∧
      (exceptState (processImage cfg env st img)).events
        = st.events ++ Ev.row (mkRow cfg st img) :: rest := by
  simp only [processImage]
  split
  · exact ⟨[], by simp [exceptState, mkRow, imagePath]⟩
  · split
    · exact ⟨[Ev.imageReq img.image_url], by simp [exceptState, mkRow, imagePath]⟩
    · split
      · exact ⟨[Ev.imageReq img.image_url, Ev.fileWrite (imagePath cfg img.image_url)],
          by simp [exceptState, mkRow, imagePath]⟩
      · exact ⟨[Ev.imageReq img.image_url], by simp [exceptState, mkRow, imagePath]⟩

lemma inv_fields (cfg : Cfg) {st st' : St} (hr : st'.rows = st.rows)
    (hn : st'.numImages = st.numImages) (h : Inv cfg st) : Inv cfg st' := by
  constructor
  · rw [hr, hn]; exact h.1
  · intro r hm; exact h.2 r (hr ▸ hm)

lemma inv_processImage (cfg : Cfg) (env : Env) (st : St) (img : Image)
    (h : Inv cfg st) : Inv cfg (exceptState (processImage cfg env st img)) := by
  obtain ⟨rest, hr, hn, _⟩ := processImage_shape cfg env st img
  constructor
  · rw [hr, hn, List.map_append, h.1]
    simp [mkRow, range1_concat]
  · intro r hm
    rw [hr] at hm
    rcases List.mem_append.1 hm with h1 | h2
    · exact h.2 r h1
    · simp only [List.mem_singleton] at h2
      subst h2
      simp [mkRow]

lemma inv_processImages (cfg : Cfg) (env : Env) :
    ∀ (imgs : List Image) (st : St), Inv cfg st →
      Inv cfg (exceptState (processImages cfg env st imgs))
  | [], st, h => by simpa [processImages, exceptState] using h
  | img :: rest, st, h => by
    rw [processImages]
    rcases hp : processImage cfg env st img with st' | st'
    · have := inv_processImage cfg env st img h
      rw [hp] at this
      simpa [exceptState] using this
    · have := inv_processImage cfg env st img h
      rw [hp] at this
      simp only [exceptState] at this ⊢
      exact inv_processImages cfg env rest st' this

lemma inv_loopStep (cfg : Cfg) (env : Env) (st : St) (h : Inv cfg st) :
    Inv cfg (stepState (loopStep cfg env st)) := by
  rw [loopStep]
  rcases hf : fetchPage env st.url with ⟨o, evs⟩
  rcases o with _ | doc
  · rcases hs : ({ st with events := st.events ++ evs } : St).soup with _ | soup
    · simp only [hs]
      simpa [stepState] using inv_fields cfg rfl rfl h
    · simp only [hs]
      rcases hn : scrape_next_link soup ({ st with events := st.events ++ evs } : St).url
          ({ st with events := st.events ++ evs } : St).curPage with _ | nurl
      · simp only [hn]
        simpa [stepState] using inv_fields cfg rfl rfl h
      · simp only [hn]
        simpa [stepState] using inv_fields cfg rfl rfl h
  · rcases hi : scrape_images doc with _ | image_list
    · simp only [hi]
      simpa [stepState] using inv_fields cfg rfl rfl h
    · simp only [hi]
      have hinv : Inv cfg ({ st with events := st.events ++ evs, soup := some doc } : St) :=
        inv_fields cfg rfl rfl h
      have h2 := inv_processImages cfg env image_list _ hinv
      rcases hp : processImages cfg env
          { st with events := st.events ++ evs, soup := some doc } image_list with st' | st'
      · rw [hp] at h2
        simp only [hp]
        simpa [stepState, exceptState] using h2
      · rw [hp] at h2
        simp only [hp, exceptState] at h2 ⊢
        rcases hn : scrape_next_link doc st'.url st'.curPage with _ | nurl
        · simp only [hn]
          simpa [stepState] using h2
        · simp only [hn]
          simpa [stepState] using inv_fields cfg rfl rfl h2

lemma inv_run (cfg : Cfg) (env : Env) :
    ∀ (fuel : Nat) (st : St), Inv cfg st →
      Inv cfg (resultState (run cfg env fuel st))
  | 0, st, h => by simpa [run, resultState] using h
  | fuel + 1, st, h => by
    rw [run]
    by_cases hc : st.numImages < cfg.max_images
    · rw [if_pos hc]
      have hs := inv_loopStep cfg env st h
      rcases hl : loopStep cfg env st with st' | st'
      · rw [hl] at hs
        simp only [stepState] at hs
        exact inv_run cfg env fuel st' hs
      · rw [hl] at hs
        simpa [stepState, resultState] using hs
    · rw [if_neg hc]
      simpa [resultState] using h

lemma inv_init (cfg : Cfg) (files0 : List String) : Inv cfg (initState cfg files0) := by
  constructor
  · simp [initState]
  · intro r hm
    simp [initState] at hm

/-! ### Claim theorems -/

/-- Claim C1: when a page fetch fails on all 6 attempts (the initial one
and the 5 retries), the run controller does not abort and records no rows
for the failed page: it goes straight to the next-page lookup on the page
content held in the soup variable, and when that yields a next address the
loop continues (StepRes.next) from that address with cur_page incremented
and the rows, num_images, files and soup fields untouched. -/
theorem claim_C1 (cfg : Cfg) (env : Env) (st : St) (d : Document) (href : String)
    (hfail : ∀ k, k < 6 → env.pageFetch st.url k = none)
    (hsoup : st.soup = some d)
    (hnext : d.nextHref = some href) :
    ∃ evs : List Ev, loopStep cfg env st = .next { st with
      url := "https://www.google.com" ++ href,
      curPage := st.curPage + 1,
      events := st.events ++ evs } := by
  have h0 := hfail 0 (by omega)
  have h1 := hfail 1 (by omega)
  have h2 := hfail 2 (by omega)
  have h3 := hfail 3 (by omega)
  have h4 := hfail 4 (by omega)
  have h5 := hfail 5 (by omega)
  have hfp : fetchPage env st.url = (none, [Ev.pageReq st.url 0, Ev.sleep 5,
      Ev.pageReq st.url 1, Ev.sleep 5, Ev.pageReq st.url 2, Ev.sleep 5, Ev.pageReq st.url 3,
      Ev.sleep 5, Ev.pageReq st.url 4, Ev.sleep 5, Ev.pageReq st.url 5]) := by
    simp [fetchPage, pageRetries, h0, h1, h2, h3, h4, h5]
  refine ⟨[Ev.pageReq st.url 0, Ev.sleep 5, Ev.pageReq st.url 1, Ev.sleep 5,
    Ev.pageReq st.url 2, Ev.sleep 5, Ev.pageReq st.url 3, Ev.sleep 5, Ev.pageReq st.url 4,
    Ev.sleep 5, Ev.pageReq st.url 5], ?_⟩
  rw [loopStep, hfp]
  simp [hsoup, scrape_next_link, hnext]

/-- Claim C1 witness: a concrete state with a previous page in the soup
variable whose next-page lookup succeeds, under an environment where all
six fetch attempts fail. -/
theorem claim_C1_witness :
    stC1.soup = some docC1 ∧ docC1.nextHref = some "/p2" ∧
    ∃ evs : List Ev, loopStep cfgC1 envC1 stC1 = StepRes.next { stC1 with
      url := "https://www.google.com" ++ "/p2",
      curPage := stC1.curPage + 1,
      events := stC1.events ++ evs } :=
  ⟨rfl, rfl, claim_C1 cfgC1 envC1 stC1 docC1 "/p2" (fun _ _ => rfl) rfl rfl⟩

/-- Claim C2 counterexample: on a results page with no next-page anchor the
run does not terminate cleanly as Done: scrape_next_link raises (modelled
by none) and the run aborts. The claim that the run controller treats a
missing next-navigation element as a normal terminal transition is false
on the code. -/
theorem claim_C2_counterexample :
    docC2.nextHref = none ∧
    isAborted (run cfgC2 envC2 5 (initState cfgC2 [])) = true :=
  ⟨rfl, by decide⟩

/-- Claim C2 amended: when the next-page anchor is absent from the fetched
page, the iteration always ends in an abort (an uncaught TypeError inside
scrape_next_link, or an earlier uncaught extraction error), never in a
clean continuation; there is no NoNextPage value and no transition to a
clean Done. -/
theorem claim_C2_amended (cfg : Cfg) (env : Env) (st : St) (d : Document)
    (hfetch : env.pageFetch st.url 0 = some d)
    (hnext : d.nextHref = none) :
    ∃ st', loopStep cfg env st = .aborted st' := by
  have hfp : fetchPage env st.url = (some d, [Ev.pageReq st.url 0]) := by
    simp [fetchPage, hfetch]
  rw [loopStep, hfp]
  rcases hi : scrape_images d with _ | imgs
  · exact ⟨{ st with events := st.events ++ [Ev.pageReq st.url 0], soup := some d },
      by simp [hi]⟩
  · rcases hp : processImages cfg env
        { st with events := st.events ++ [Ev.pageReq st.url 0], soup := some d } imgs
      with st' | st'
    · exact ⟨st', by simp [hi, hp]⟩
    · exact ⟨st', by simp [hi, hp, scrape_next_link, hnext]⟩

/-- Claim C2 amended witness: the amended theorem applied to the concrete
page without a next-page anchor. -/
theorem claim_C2_witness :
    envC2.pageFetch (initState cfgC2 []).url 0 = some docC2 ∧ docC2.nextHref = none ∧
    ∃ st', loopStep cfgC2 envC2 (initState cfgC2 []) = StepRes.aborted st' :=
  ⟨rfl, rfl, claim_C2_amended cfgC2 envC2 (initState cfgC2 []) docC2 rfl rfl⟩

/-- Claim C3: over any run from the initial state, the rank_pos values of
the rows written to the metadata store are exactly 1, 2, ..., n with no
gaps, where n is the total number of rows, independent of pagination:
num_images is never reset between pages. -/
theorem claim_C3 (cfg : Cfg) (env : Env) (fuel : Nat) (files0 : List String) :
    (resultState (run cfg env fuel (initState cfg files0))).rows.map Row.rank_pos
      = List.range' 1 (resultState (run cfg env fuel (initState cfg files0))).rows.length := by
  have h := (inv_run cfg env fuel (initState cfg files0) (inv_init cfg files0)).1
  have hl : (resultState (run cfg env fuel (initState cfg files0))).rows.length
      = (resultState (run cfg env fuel (initState cfg files0))).numImages := by
    have := congrArg List.length h
    simpa using this
  rw [h, hl]

/-- Claim C4: when the metadata CSV file already exists at startup, main
takes the early exit: no events at all (hence no network requests and no
writes to the existing file), and a clean exit status 0, before any
scraping work. -/
theorem claim_C4 (cfg : Cfg) (env : Env) (fuel : Nat) (files0 : List String) :
    mainModel cfg env fuel files0 true = MainOutcome.earlyExit ∧
    mainEvents cfg env fuel files0 true = [] ∧
    mainExitCode (mainModel cfg env fuel files0 true) = 0 :=
  ⟨rfl, rfl, rfl⟩

/-- Claim C5: every row a run writes has download_file equal to the
content-addressed path determined by its image_url alone: the sha1 hex
digest of the url plus the fixed .jpg extension inside the query folder.
Two records or runs with the same image address therefore compute the
same local filename. -/
theorem claim_C5 (cfg : Cfg) (env : Env) (fuel : Nat) (files0 : List String) (r : Row)
    (hr : r ∈ (resultState (run cfg env fuel (initState cfg files0))).rows) :
    r.download_file = imagePath cfg r.image_url :=
  (inv_run cfg env fuel (initState cfg files0) (inv_init cfg files0)).2 r hr

set_option maxRecDepth 100000 in
/-- Claim C5 witness: a concrete one-record run whose single row carries
the content-addressed path of its image url. -/
theorem claim_C5_witness :
    rowC5 ∈ (resultState (run cfgC5 envC5 3 (initState cfgC5 []))).rows ∧
    rowC5.download_file = imagePath cfgC5 rowC5.image_url := by
  have he : (resultState (run cfgC5 envC5 3 (initState cfgC5 []))).rows = [rowC5] := by decide
  have hm : rowC5 ∈ (resultState (run cfgC5 envC5 3 (initState cfgC5 []))).rows := by
    rw [he]
    exact List.mem_singleton.mpr rfl
  exact ⟨hm, claim_C5 cfgC5 envC5 3 [] rowC5 hm⟩

/-- Claim C6: for every processed record, the events added by record
processing begin with the CSV row write: the row is appended to the
metadata store before any image request, and the row is in the store in
every outcome of the subsequent image fetch (ok or aborting exception),
so its durability never depends on image-fetch success. -/
theorem claim_C6 (cfg : Cfg) (env : Env) (st : St) (img : Image) :
    ∃ rest : List Ev,
      (exceptState (processImage cfg env st img)).events
        = st.events ++ Ev.row (mkRow cfg st img) :: rest ∧
      (exceptState (processImage cfg env st img)).rows = st.rows ++ [mkRow cfg st img] := by
  obtain ⟨rest, hr, _, he⟩ := processImage_shape cfg env st img
  exact ⟨rest, he, hr⟩

/-- Claim C7: when the computed image path already names an existing file,
processing the record writes the metadata row and does nothing else: no
image request event, no file write, files unchanged, and processing
continues normally. -/
theorem claim_C7 (cfg : Cfg) (env : Env) (st : St) (img : Image)
    (h : imagePath cfg img.image_url ∈ st.files) :
    processImage cfg env st img = .ok { st with
      numImages := st.numImages + 1,
      rows := st.rows ++ [mkRow cfg st img],
      events := st.events ++ [Ev.row (mkRow cfg st img)] } := by
  have h' : joinPath (folderp cfg) (sha1HexString img.image_url ++ ".jpg") ∈ st.files := h
  simp [processImage, h', mkRow, imagePath]

/-- Claim C7 witness: the theorem applied to a state whose files already
contain the computed path. -/
theorem claim_C7_witness :
    imagePath cfgC7 imgC7.image_url ∈ stC7.files ∧
    processImage cfgC7 envC7 stC7 imgC7 = .ok { stC7 with
      numImages := stC7.numImages + 1,
      rows := stC7.rows ++ [mkRow cfgC7 stC7 imgC7],
      events := stC7.events ++ [Ev.row (mkRow cfgC7 stC7 imgC7)] } := by
  have hm : imagePath cfgC7 imgC7.image_url ∈ stC7.files := by simp [stC7, imgC7]
  exact ⟨hm, claim_C7 cfgC7 envC7 stC7 imgC7 hm⟩

/-- Claim C8 counterexample: page fetch succeeds with two records, and the
first image fetch raises a transient network exception; the run does not
retry the image fetch and does not continue with the next record, it
aborts: exactly one row was written and exactly one image request was
made. This refutes the claim that an image fetch is retried up to 5 times
and that exhaustion is a per-image skip. -/
theorem claim_C8_counterexample :
    isAborted (run cfgC8 envC8 5 (initState cfgC8 [])) = true ∧
    (resultState (run cfgC8 envC8 5 (initState cfgC8 []))).rows.length = 1 ∧
    countImageReqs (resultState (run cfgC8 envC8 5 (initState cfgC8 []))).events = 1 :=
  ⟨by decide, by decide, by decide⟩

/-- Claim C8 amended: an exception on an individual image fetch is not
retried and is not a per-image skip: exactly one image request is made and
the exception propagates, aborting the run; the metadata row written just
before the fetch is kept and no image file is written. (Only the page
fetch has the 5-retry, 5-second-delay policy.) -/
theorem claim_C8_amended (cfg : Cfg) (env : Env) (st : St) (img : Image)
    (hex : env.imageFetch img.image_url = none)
    (hnf : imagePath cfg img.image_url ∉ st.files) :
    processImage cfg env st img = .error { st with
      numImages := st.numImages + 1,
      rows := st.rows ++ [mkRow cfg st img],
      events := st.events ++ [Ev.row (mkRow cfg st img), Ev.imageReq img.image_url] } := by
  have h' : joinPath (folderp cfg) (sha1HexString img.image_url ++ ".jpg") ∉ st.files := hnf
  simp [processImage, h', hex, mkRow, imagePath]

/-- Claim C8 amended witness: the amended theorem applied to a concrete
record whose image fetch raises. -/
theorem claim_C8_witness :
    envC8w.imageFetch imgC8w.image_url = none ∧
    imagePath cfgC8w imgC8w.image_url ∉ stC8w.files ∧
    processImage cfgC8w envC8w stC8w imgC8w = .error { stC8w with
      numImages := stC8w.numImages + 1,
      rows := stC8w.rows ++ [mkRow cfgC8w stC8w imgC8w],
      events := stC8w.events ++ [Ev.row (mkRow cfgC8w stC8w imgC8w),
        Ev.imageReq imgC8w.image_url] } := by
  have hn : imagePath cfgC8w imgC8w.image_url ∉ stC8w.files := by simp [stC8w]
  exact ⟨rfl, hn, claim_C8_amended cfgC8w envC8w stC8w imgC8w rfl hn⟩

/-- Claim C9: when the image fetch succeeds with zero bytes, the metadata
row with the computed local path is still written, no file is created at
that path (files unchanged, no file-write event), and processing continues
normally with the next record. -/
theorem claim_C9 (cfg : Cfg) (env : Env) (st : St) (img : Image)
    (hz : env.imageFetch img.image_url = some [])
    (hnf : imagePath cfg img.image_url ∉ st.files) :
    processImage cfg env st img = .ok { st with
      numImages := st.numImages + 1,
      rows := st.rows ++ [mkRow cfg st img],
      events := st.events ++ [Ev.row (mkRow cfg st img), Ev.imageReq img.image_url] } := by
  have h' : joinPath (folderp cfg) (sha1HexString img.image_url ++ ".jpg") ∉ st.files := hnf
  simp [processImage, h', hz, mkRow, imagePath]

/-- Claim C9 witness: the theorem applied to a concrete record whose image
fetch returns an empty body. -/
theorem claim_C9_witness :
    envC9.imageFetch imgC9.image_url = some [] ∧
    imagePath cfgC9 imgC9.image_url ∉ stC9.files ∧
    processImage cfgC9 envC9 stC9 imgC9 = .ok { stC9 with
      numImages := stC9.numImages + 1,
      rows := stC9.rows ++ [mkRow cfgC9 stC9 imgC9],
      events := stC9.events ++ [Ev.row (mkRow cfgC9 stC9 imgC9),
        Ev.imageReq imgC9.image_url] } := by
  have hn : imagePath cfgC9 imgC9.image_url ∉ stC9.files := by simp [stC9]
  exact ⟨rfl, hn, claim_C9 cfgC9 envC9 stC9 imgC9 rfl hn⟩

/-- Claim C10: the next-page address computed by scrape_next_link depends
only on the parsed page document; the url and pagination_index arguments
are ignored, so any two calls on the same document agree. -/
theorem claim_C10 (page : Document) (u1 u2 : String) (i1 i2 : Nat) :
    scrape_next_link page u1 i1 = scrape_next_link page u2 i2 := rfl

end Scraper
